import Mathlib

/-!
Verification of the jarvis secure-messaging library against its specification.

The development shallowly embeds the Python sources:

* src/jarvis/Crypto.py   — the RSA/AES wrapper class (`Crypto`);
* src/jarvis/Protocol.py — the secure envelope protocol (`Protocol`);
* src/jarvis/MQTT.py     — topic matching and the request/reply correlator (`MQTT`);
* src/jarvis/API.py      — the route dispatcher (`API`).

Cryptographic byte strings are modelled symbolically (a Dolev-Yao style term
algebra `Val`): RSA encryption, RSA signatures and AES ciphertexts are free
constructors, and the decryption/verification primitives of the external
`rsa` and `cryptography` libraries succeed exactly when the keys line up, as
the spec describes in section 4.1.  Base64 and the UTF-8 str/bytes
conversions are bijections on transported data, so they are modelled as the
identity on `Val`.  Python exceptions become the `Except` monad: every
fallible operation returns `Except PyExc`, and the `try`/`except` blocks of
the source are translated to matches on that result.  State mutation
(AES-key rotation, random generation) is explicit state passing with a
deterministic nonce counter standing in for `os.urandom`.
-/

namespace Jarvis

/-- Python exception classes that the modelled code can raise.
`DecryptionError` is `rsa.pkcs1.DecryptionError`, aliased in the source as
`Protocol.UnauthorizedException`; `SignatureMismatch` and `OwnMessage` are
defined in src/jarvis/Protocol.py; `ValueError` stands for the errors raised
by PEM key loading on malformed keys, by PKCS7 unpadding, and by
`json.loads`; `TypeError` stands for subscripting a non-dict value. -/
inductive PyExc
  | DecryptionError
  | SignatureMismatch
  | OwnMessage
  | ValueError
  | TypeError
  deriving DecidableEq, Repr

/-- A Python value passed where the source expects a PEM key string (or
`None`).  `privKey id` / `pubKey id` are the well-formed PEM members of
keypair number `id`; `badPem s` starts with the RSA public-key marker but
fails to load; `garbage s` is a string without the marker; `noKey` is
Python `None`. -/
inductive KeyStr
  | privKey (id : Nat)
  | pubKey (id : Nat)
  | badPem (s : String)
  | garbage (s : String)
  | noKey
  deriving DecidableEq, Repr

/-- Result of Python `str.startswith(Protocol.PUBKEY_START_SEQ)` on a key
string (src/jarvis/Protocol.py line 72). -/
def KeyStr.hasPubMarker : KeyStr → Bool
  | .pubKey _ => true
  | .badPem _ => true
  | _ => false

/-- Symbolic universe of the byte/string data flowing through the crypto
layer.  `jsonDumps v` is the JSON serialization of `v`; `rsaEnc i m` is the
RSA encryption of `m` under public key `i`; `rsaSig i m` is the RSA
signature of `m` under private key `i`; `aesEnc key iv m` is the AES-CBC
ciphertext of `m`; `random n` is the output of the n-th `os.urandom` draw;
`symJson key iv` is the serialized symmetric-key dict built in
`Protocol.encrypt` line 132; `msk m s k` is the parsed secure-data dict;
`frame t p c` is the MQTT frame dict of `MQTT.publish`; `withReplyTo m` is
`m` with the reply-to key added by `MQTT.onetime`. -/
inductive Val
  | ofString (s : String)
  | jsonDumps (v : Val)
  | rsaEnc (pubId : Nat) (m : Val)
  | rsaSig (privId : Nat) (m : Val)
  | aesEnc (key iv m : Val)
  | random (nonce : Nat)
  | symJson (key iv : Val)
  | msk (m s k : Val)
  | frame (topic : String) (payload : Val) (cid : String)
  | withReplyTo (m : Val)
  deriving DecidableEq, Repr

/-- Base64 encoding (src/jarvis/Protocol.py `b64e`): a bijection on binary
data, modelled as the identity on symbolic values. -/
def b64e (v : Val) : Val := v

/-- Base64 decoding (src/jarvis/Protocol.py `b64d`), inverse of `b64e`. -/
def b64d (v : Val) : Val := v

/-- UTF-8 encoding (src/jarvis/Protocol.py `_str_to_bytes`), modelled as the
identity on symbolic values. -/
def strToBytes (v : Val) : Val := v

/-- UTF-8 decoding (src/jarvis/Protocol.py `_bytes_to_str`), inverse of
`strToBytes`. -/
def bytesToStr (v : Val) : Val := v

/-- Modelled from the spec: `rsa.PublicKey.load_pkcs1` of the external `rsa`
library (not under src/).  Loading succeeds exactly on a well-formed public
PEM key and raises otherwise (`ValueError` for a string without the proper
PEM structure, `TypeError` for `None`). -/
def loadPub : KeyStr → Except PyExc Nat
  | .pubKey id => .ok id
  | .noKey => .error .TypeError
  | _ => .error .ValueError

/-- Modelled from the spec: `rsa.PrivateKey.load_pkcs1` of the external
`rsa` library (not under src/). -/
def loadPriv : KeyStr → Except PyExc Nat
  | .privKey id => .ok id
  | .noKey => .error .TypeError
  | _ => .error .ValueError

/-- Modelled from the spec: `rsa.sign` — producing a signature bound to the
private key and the message. -/
def rsaSignRaw (message : Val) (privId : Nat) : Val := .rsaSig privId message

/-- Modelled from the spec: `rsa.verify` — succeeds (returning a truthy
value) exactly when the signature was produced for this message by the
matching private key, and raises `VerificationError` otherwise. -/
def rsaVerifyRaw (message signature : Val) (pubId : Nat) : Except PyExc Bool :=
  if signature = .rsaSig pubId message then .ok true else .error .ValueError

/-- Modelled from the spec: `rsa.encrypt` under a public key. -/
def rsaEncryptRaw (message : Val) (pubId : Nat) : Val := .rsaEnc pubId message

/-- Modelled from the spec: `rsa.decrypt` — recovers the plaintext exactly
when the ciphertext was produced for this keypair and raises
`rsa.pkcs1.DecryptionError` otherwise (spec section 4.1: the mechanism by
which a peer detects a message not addressed to it). -/
def rsaDecryptRaw (encrypted : Val) (privId : Nat) : Except PyExc Val :=
  match encrypted with
  | .rsaEnc pid m => if pid = privId then .ok m else .error .DecryptionError
  | _ => .error .DecryptionError

/-- Modelled from the spec: AES-CBC with PKCS7 unpadding via the external
`cryptography` library — decryption with the wrong key/iv or on a non-AES
blob fails with a padding error. -/
def aesDecryptRaw (encrypted key iv : Val) : Except PyExc Val :=
  match encrypted with
  | .aesEnc k i m => if k = key ∧ i = iv then .ok m else .error .ValueError
  | _ => .error .ValueError

/-- Modelled from the spec: `json.loads` on a transported string —
round-trips `json.dumps`, parses the serialized symmetric-key dict, and
raises on anything that is not JSON text. -/
def jsonLoads : Val → Except PyExc Val
  | .jsonDumps v => .ok v
  | .symJson key iv => .ok (.symJson key iv)
  | _ => .error .ValueError

/-- Crypto.sign (src/jarvis/Crypto.py lines 41-45): load the private key,
then sign. -/
def Crypto.sign (message : Val) (private_key : KeyStr) : Except PyExc Val :=
  match loadPriv private_key with
  | .error e => .error e
  | .ok priv => .ok (rsaSignRaw message priv)

/-- Crypto.verify (src/jarvis/Crypto.py lines 47-54).  The key is loaded
OUTSIDE the try block, so a malformed key string raises; only the
`rsa.verify` call itself is guarded, with any fault resolved to `false`. -/
def Crypto.verify (message signature : Val) (public_key : KeyStr) : Except PyExc Bool :=
  match loadPub public_key with
  | .error e => .error e
  | .ok pub =>
    match rsaVerifyRaw message signature pub with
    | .ok b => .ok b
    | .error _ => .ok false

/-- Crypto.encrypt (src/jarvis/Crypto.py lines 56-60). -/
def Crypto.encrypt (message : Val) (public_key : KeyStr) : Except PyExc Val :=
  match loadPub public_key with
  | .error e => .error e
  | .ok pub => .ok (rsaEncryptRaw message pub)

/-- Crypto.decrypt (src/jarvis/Crypto.py lines 62-66). -/
def Crypto.decrypt (encrypted : Val) (private_key : KeyStr) : Except PyExc Val :=
  match loadPriv private_key with
  | .error e => .error e
  | .ok priv => rsaDecryptRaw encrypted priv

/-- Crypto.symmetric (src/jarvis/Crypto.py lines 68-79): draw a fresh AES
key and initialization vector; `os.urandom` is modelled by a deterministic
nonce counter threaded through the state. -/
def Crypto.symmetric (rng : Nat) : (Val × Val) × Nat :=
  ((.random rng, .random (rng + 1)), rng + 2)

/-- Crypto.aes_encrypt (src/jarvis/Crypto.py lines 81-92). -/
def Crypto.aes_encrypt (message key iv : Val) : Val := .aesEnc key iv message

/-- Crypto.aes_decrypt (src/jarvis/Crypto.py lines 94-102). -/
def Crypto.aes_decrypt (encrypted key iv : Val) : Except PyExc Val :=
  aesDecryptRaw encrypted key iv

/-- The instance state of src/jarvis/Protocol.py `Protocol`: own keypair,
remote public key, current AES key/iv, the rotation flag, the derived
`secure` capability flag, and the nonce counter standing in for the
process randomness source. -/
structure Protocol where
  priv : KeyStr
  pub : KeyStr
  rpub : KeyStr
  key : Val
  iv : Val
  rotate : Bool
  secure : Bool
  rng : Nat
  deriving DecidableEq, Repr

/-- Protocol.rotate_aes (src/jarvis/Protocol.py lines 192-195): regenerate
the AES key and initialization vector. -/
def Protocol.rotate_aes (p : Protocol) : Protocol :=
  let s := Crypto.symmetric p.rng
  { p with key := s.1.1, iv := s.1.2, rng := s.2 }

/-- Protocol.__init__ (src/jarvis/Protocol.py lines 44-76): store the keys,
derive `secure` from the remote key being non-None and carrying the public
PEM marker, and generate AES material when none was supplied. -/
def Protocol.init (local_private_key local_public_key remote_public_key : KeyStr)
    (aes_key aes_iv : Option Val) (auto_rotate : Bool) (rng : Nat) : Protocol :=
  let secure := if remote_public_key = KeyStr.noKey then false else remote_public_key.hasPubMarker
  let p : Protocol :=
    { priv := local_private_key, pub := local_public_key, rpub := remote_public_key,
      key := aes_key.getD (Val.ofString ""), iv := aes_iv.getD (Val.ofString ""),
      rotate := auto_rotate, secure := secure, rng := rng }
  if aes_key.isNone || aes_iv.isNone then p.rotate_aes else p

/-- The `data` field of a parsed envelope: either the secure m/s/k dict or
the raw (insecure) payload. -/
inductive EnvData
  | secureData (m s k : Val)
  | rawData (v : Val)
  deriving DecidableEq, Repr

/-- A parsed envelope produced by `Protocol.encrypt` (spec section 6 wire
format). -/
structure Envelope where
  version : Int
  secure : Bool
  data : EnvData
  deriving DecidableEq, Repr

/-- The universe of strings fed to `Protocol.decrypt`: text that is not
JSON at all, a JSON object without a version tag, or a parsed envelope. -/
inductive DecryptInput
  | notJson (s : String)
  | noVersion
  | env (e : Envelope)
  deriving DecidableEq, Repr

/-- What `Protocol.decrypt` hands back on a non-exceptional exit: the
decrypted payload string, the raw envelope structure with `data` replaced
(`return_raw=True`), or Python `None`. -/
inductive DecryptOut
  | ret (v : Val)
  | retRaw (e : Envelope)
  | retNone
  deriving DecidableEq, Repr

/-- Protocol.encrypt (src/jarvis/Protocol.py lines 78-141): rotate the AES
material when rotation is on, then either sign + AES-encrypt the payload
and RSA-wrap the symmetric key for the remote public key (secure), or store
the message verbatim (insecure).  Returns the envelope and the
post-rotation instance state; key-loading faults propagate as exceptions
exactly as in the source. -/
def Protocol.encrypt (p0 : Protocol) (message : Val) (is_json : Bool) :
    Except PyExc (Envelope × Protocol) :=
  let p := if p0.rotate then p0.rotate_aes else p0
  if p.secure then
    let msg := strToBytes (if is_json then Val.jsonDumps message else message)
    match Crypto.sign msg p.priv with
    | .error e => .error e
    | .ok signature =>
      let encrypted := Crypto.aes_encrypt msg p.key p.iv
      let symmetric_key := Val.symJson (b64e p.key) (b64e p.iv)
      match Crypto.encrypt (strToBytes symmetric_key) p.rpub with
      | .error e => .error e
      | .ok encrypted_symmetric_key =>
        .ok ({ version := 1, secure := p.secure,
               data := .secureData (b64e encrypted) (b64e signature) (b64e encrypted_symmetric_key) },
             p)
  else
    .ok ({ version := 1, secure := p.secure, data := .rawData message }, p)

/-- The guarded key-unwrap step of Protocol.decrypt (src/jarvis/Protocol.py
line 170): RSA-decrypt the wrapped symmetric key with the own private key
and parse the resulting JSON; both operations sit inside the same try
block. -/
def unwrapSymKey (k : Val) (priv : KeyStr) : Except PyExc Val :=
  match Crypto.decrypt k priv with
  | .error e => .error e
  | .ok dec => jsonLoads (bytesToStr dec)

/-- Subscripting the parsed symmetric-key dict (src/jarvis/Protocol.py
lines 175-176, OUTSIDE the try block): fails when the unwrapped JSON is
not the key/iv dict. -/
def getKeyIv : Val → Except PyExc (Val × Val)
  | .symJson key iv => .ok (key, iv)
  | _ => .error .TypeError

/-- The payload object stored under the `data` key of a parsed envelope,
as handed to `json.dumps` on the insecure path of decrypt. -/
def rawPayload : EnvData → Val
  | .rawData v => v
  | .secureData m s k => .msk m s k

/-- Protocol.decrypt (src/jarvis/Protocol.py lines 143-190).  A missing
version tag returns None; version 1 secure envelopes unwrap the symmetric
key (ANY failure there is remapped to `OwnMessage` by the except block on
lines 171-174), AES-decrypt the body, verify the signature only when a
remote public key is present, and raise `SignatureMismatch` when the
signature did not check out and `ignore_invalid_signature` is false;
insecure envelopes return the raw payload; other versions return None. -/
def Protocol.decrypt (p : Protocol) (input : DecryptInput)
    (ignore_invalid_signature : Bool) (return_raw : Bool) : Except PyExc DecryptOut :=
  match input with
  | .notJson _ => .error .ValueError
  | .noVersion => .ok .retNone
  | .env e =>
    if e.version = 1 then
      if e.secure then
        match e.data with
        | .rawData _ => .error .TypeError
        | .secureData em es ek =>
          match unwrapSymKey (b64d ek) p.priv with
          | .error _ => .error .OwnMessage
          | .ok symkey =>
            match getKeyIv symkey with
            | .error e2 => .error e2
            | .ok ki =>
              match Crypto.aes_decrypt (b64d em) (b64d ki.1) (b64d ki.2) with
              | .error e2 => .error e2
              | .ok decrypted_message =>
                match (if p.rpub = KeyStr.noKey then Except.ok false
                       else Crypto.verify decrypted_message (b64d es) p.rpub) with
                | .error e2 => .error e2
                | .ok sign_match =>
                  if !sign_match && !ignore_invalid_signature then
                    .error .SignatureMismatch
                  else if return_raw then
                    .ok (.retRaw { e with data := .rawData (bytesToStr decrypted_message) })
                  else
                    .ok (.ret (bytesToStr decrypted_message))
      else
        if return_raw then .ok (.retRaw e)
        else .ok (.ret (.jsonDumps (rawPayload e.data)))
    else
      .ok .retNone

/-- Protocol.check_signature (src/jarvis/Protocol.py lines 197-202):
attempt a full decrypt with `ignore_invalid_signature=False` and
`return_raw=True`; the try block catches ONLY `SignatureMismatch`
(converted to `False`); a normal return yields `True`, and every other
exception propagates. -/
def Protocol.check_signature (p : Protocol) (payload : DecryptInput) : Except PyExc Bool :=
  match p.decrypt payload false true with
  | .ok _ => .ok true
  | .error .SignatureMismatch => .ok false
  | .error e => .error e

/-- Python `str.split` on a slash, for topic strings: character-level
splitter over the string contents (an empty string yields one empty
segment, as in Python). -/
def splitSlashAux (cs : List Char) (acc : List Char) : List String :=
  match cs with
  | [] => [acc.reverse.asString]
  | c :: rest =>
    if c = '/' then acc.reverse.asString :: splitSlashAux rest []
    else splitSlashAux rest (c :: acc)

/-- Split a topic or subscription string on the slash separator. -/
def splitSlash (s : String) : List String := splitSlashAux s.data []

/-- Modelled from the spec (section 4.3): the pairwise segment walk of the
MQTT wildcard matcher.  The source (src/jarvis/MQTT.py lines 210-223)
delegates to `paho.mqtt.matcher.MQTTMatcher`, an external library that is
not under src/, so the walk is taken from the spec text: a single-level
wildcard consumes exactly one topic segment, the multi-level wildcard must
be the final pattern segment and matches the remaining one or more segments
unconditionally, a literal segment must equal the topic segment exactly,
and exhausting either list before the other is a non-match. -/
def segMatch (pat top : List String) : Bool :=
  match pat, top with
  | [], [] => true
  | [], _ :: _ => false
  | _ :: _, [] => false
  | pseg :: ps, tseg :: ts =>
    if pseg = "#" then ps.isEmpty
    else if pseg = "+" then segMatch ps ts
    else if pseg = tseg then segMatch ps ts
    else false

/-- MQTT.match (src/jarvis/MQTT.py lines 210-223): whether a topic matches
a subscription pattern; split both strings on the slash and walk the
segments (`segMatch`). -/
def MQTT.matchTopic (subscription topic : String) : Bool :=
  segMatch (splitSlash subscription) (splitSlash topic)

/-- One item of the regular expression that `API._get` builds from a route
pattern (src/jarvis/API.py line 62): an ordinary literal character, the
group `([^/]+)` substituted for a plus, or the group `([^ ]+)` substituted
for a hash. -/
inductive RItem
  | lit (c : Char)
  | plusGroup
  | hashGroup
  deriving DecidableEq, Repr

/-- The regex construction of src/jarvis/API.py line 62:
`subscription.replace("+", "([^/]+)").replace("#", "([^ ]+)")`, parsed as a
regular expression.  The model covers patterns whose remaining characters
are ordinary (no regex metacharacters), which is the shape of every
registered route pattern. -/
def toRegex (pattern : String) : List RItem :=
  pattern.data.map fun c =>
    if c = '+' then RItem.plusGroup
    else if c = '#' then RItem.hashGroup
    else RItem.lit c

/-- Greedy backtracking for one capture group: try consuming `k` characters
first (the maximal run, as a greedy Python regex engine does), then
backtrack to shorter non-empty runs, invoking the continuation `f` on the
number of consumed characters.  Returns the captured text consed onto the
continuation captures. -/
def pickSplit (f : Nat → Option (List String)) (ts : List Char) : Nat → Option (List String)
  | 0 => none
  | j + 1 =>
    match f (j + 1) with
    | some gs => some ((ts.take (j + 1)).asString :: gs)
    | none => pickSplit f ts j

/-- Python `re.match` of the constructed route regex against a topic
string: anchored at position 0, matching a PREFIX of the input (re.match
does not anchor at the end), with greedy backtracking groups.  Returns the
ordered list of captured groups on success. -/
def reMatch (pat : List RItem) (ts : List Char) : Option (List String) :=
  match pat with
  | [] => some []
  | .lit c :: ps =>
    match ts with
    | [] => none
    | t :: ts2 => if c = t then reMatch ps ts2 else none
  | .plusGroup :: ps =>
    pickSplit (fun n => reMatch ps (ts.drop n)) ts (ts.takeWhile (fun ch => ch ≠ '/')).length
  | .hashGroup :: ps =>
    pickSplit (fun n => reMatch ps (ts.drop n)) ts (ts.takeWhile (fun ch => ch ≠ ' ')).length

/-- The Python values relevant to the dispatcher contract: booleans (which
`execute` special-cases through `isinstance(res, bool)`), strings, None,
and other values. -/
inductive PyObj
  | bool (b : Bool)
  | str (s : String)
  | int (n : Int)
  | pynone
  deriving DecidableEq, Repr

/-- What a registered route handler does when invoked: raise an exception
with a message, or return a Python value. -/
inductive HandlerResult
  | raises (msg : String)
  | returns (v : PyObj)
  deriving DecidableEq, Repr

/-- A route handler: receives the ordered captured segments and either
raises or returns a value. -/
abbrev Handler := List String → HandlerResult

/-- API.default_route (src/jarvis/API.py lines 95-98): handles a route for
which no function was found by always raising. -/
def API.default_route : Handler := fun _ => HandlerResult.raises "Endpoint not found"

/-- API._get (src/jarvis/API.py lines 58-76): walk the registered routes in
registration order (Python dicts preserve insertion order); the first
pattern whose constructed regex `re.match`-es the topic wins, and its
`re.search` capture groups become the argument list; if none matches, the
default route with empty arguments is returned.  Polymorphic in the handler
payload so that resolution can be stated independently of execution. -/
def API.get {α : Type} (routes : List (String × α)) (route : String) (default : α) :
    α × List String :=
  match routes with
  | [] => (default, [])
  | (sub, h) :: rest =>
    match reMatch (toRegex sub) route.data with
    | some gs => (h, gs)
    | none => API.get rest route default

/-- API.execute (src/jarvis/API.py lines 78-93): resolve the route, invoke
the handler with the captured segments; an exception becomes
`(False, str(e))`, a boolean return becomes `(value, None)`, anything else
becomes `(True, value)`. -/
def API.execute (routes : List (String × Handler)) (route : String) : Bool × PyObj :=
  let endpoint := API.get routes route API.default_route
  match endpoint.1 endpoint.2 with
  | .raises msg => (false, PyObj.str msg)
  | .returns (PyObj.bool b) => (b, PyObj.pynone)
  | .returns v => (true, v)

/-- Whether the one-time reply registry entry has been written by the
inbound callback by poll tick `k`; the callback (`MQTT._on_msg`) is
abstracted by the tick `arrivesAt` at which the reply lands, `none` when no
responder ever answers. -/
def arrivedAt (arrivesAt : Option Nat) (k : Nat) : Bool :=
  match arrivesAt with
  | some n => decide (n ≤ k)
  | none => false

/-- The polling loop of MQTT.onetime (src/jarvis/MQTT.py lines 192-196):
each iteration checks the registry for the one-time channel, sleeps one
tick, and after the deadline writes the sentinel `False` into the registry
so that the next check exits.  `fuel` bounds the recursion and is chosen
large enough to never run out; the result is the registry value read after
the loop together with the number of sleep ticks spent. -/
def onetimeLoop (timeout : Nat) (arrivesAt : Option Nat) (replyVal : PyObj) :
    Nat → Nat → Bool → Option (PyObj × Nat)
  | 0, _, _ => none
  | fuel + 1, k, sentinel =>
    if sentinel then some (PyObj.bool false, k)
    else if arrivedAt arrivesAt k then some (replyVal, k)
    else onetimeLoop timeout arrivesAt replyVal fuel (k + 1) (decide (timeout < k + 1))

/-- The frame published by MQTT.onetime: `publish` wraps the serialized
message (with the reply-to channel attached when `timeout != 0`, line 184)
into the topic/payload/client dict, which `Protocol.encrypt` then
serializes (src/jarvis/MQTT.py lines 94-108 and 182-188). -/
def publishedFrame (client_id topic : String) (message : Val) (timeout : Nat) : Val :=
  Val.frame topic (Val.jsonDumps (if timeout != 0 then Val.withReplyTo message else message)) client_id

/-- Observable outcome of one MQTT.onetime call: the returned value or
propagated exception, whether the ephemeral session was disconnected
before exit, whether the one-time registry entry is still present at exit,
whether a reply-to channel was attached to the outgoing message, and how
many sleep ticks the wait loop consumed. -/
structure OnetimeResult where
  result : Except PyExc (Option PyObj)
  disconnected : Bool
  entryAtExit : Bool
  replyToAttached : Bool
  waitIters : Nat
  deriving Repr

/-- MQTT.onetime (src/jarvis/MQTT.py lines 175-203): attach a reply-to
channel when `timeout != 0`, open an ephemeral session (whose Protocol
instance encrypts the published frame), and then either return immediately
after disconnecting (`timeout == 0`), or poll the response registry until
the reply arrives or the deadline writes the sentinel, delete the entry,
disconnect and return the value.  An exception raised while publishing
propagates through the bare `except Exception: raise e` WITHOUT
disconnecting the session. -/
def MQTT.onetime (client_id : String) (private_key public_key remote_public_key : KeyStr)
    (topic : String) (message : Val) (timeout : Nat) (arrivesAt : Option Nat)
    (replyVal : PyObj) : OnetimeResult :=
  let proto := Protocol.init private_key public_key remote_public_key none none true 0
  match proto.encrypt (publishedFrame client_id topic message timeout) true with
  | .error e =>
    { result := .error e, disconnected := false, entryAtExit := false,
      replyToAttached := timeout != 0, waitIters := 0 }
  | .ok _ =>
    if timeout = 0 then
      { result := .ok none, disconnected := true, entryAtExit := false,
        replyToAttached := false, waitIters := 0 }
    else
      match onetimeLoop timeout arrivesAt replyVal (timeout + 2) 0 false with
      | some pr =>
        { result := .ok (some pr.1), disconnected := true, entryAtExit := false,
          replyToAttached := true, waitIters := pr.2 }
      | none =>
        { result := .ok none, disconnected := false, entryAtExit := true,
          replyToAttached := true, waitIters := timeout + 2 }

/-- Helper: the envelope and post-state produced by a secure encrypt from a
freshly constructed auto-rotating Protocol instance with valid own keypair
`a` and valid remote public key `b`. -/
theorem Protocol.encrypt_spec (m : Val) (a b rA : Nat) :
    (Protocol.init (KeyStr.privKey a) (KeyStr.pubKey a) (KeyStr.pubKey b) none none true rA).encrypt m true
      = Except.ok
          ({ version := 1, secure := true,
             data := EnvData.secureData
               (Val.aesEnc (Val.random (rA + 2)) (Val.random (rA + 3)) (Val.jsonDumps m))
               (Val.rsaSig a (Val.jsonDumps m))
               (Val.rsaEnc b (Val.symJson (Val.random (rA + 2)) (Val.random (rA + 3)))) },
           { priv := KeyStr.privKey a, pub := KeyStr.pubKey a, rpub := KeyStr.pubKey b,
             key := Val.random (rA + 2), iv := Val.random (rA + 3),
             rotate := true, secure := true, rng := rA + 4 }) := rfl

/-- C1 (amended): decrypting an envelope that was securely encrypted for
keypair B with a Protocol instance holding keypair C's private key (B and C
distinct) fails by raising `OwnMessage` — the key-unwrap failure
(`UnauthorizedException`) is caught on lines 171-174 of
src/jarvis/Protocol.py and unconditionally remapped to `OwnMessage`,
regardless of the decrypting instance's remote key and flags. -/
theorem c1_wrong_recipient_raises_own_message (m : Val) (a b c rA rC : Nat) (rpubC : KeyStr)
    (ign raw : Bool) (env : Envelope) (pA2 : Protocol) (hbc : b ≠ c)
    (henc : (Protocol.init (KeyStr.privKey a) (KeyStr.pubKey a) (KeyStr.pubKey b) none none true rA).encrypt m true
      = Except.ok (env, pA2)) :
    (Protocol.init (KeyStr.privKey c) (KeyStr.pubKey c) rpubC none none true rC).decrypt
      (DecryptInput.env env) ign raw = Except.error PyExc.OwnMessage := by
  rw [Protocol.encrypt_spec] at henc
  simp only [Except.ok.injEq, Prod.mk.injEq] at henc
  obtain ⟨h1, h2⟩ := henc
  subst h1
  simp [Protocol.decrypt, Protocol.init, Protocol.rotate_aes, Crypto.symmetric, unwrapSymKey,
        Crypto.decrypt, loadPriv, rsaDecryptRaw, jsonLoads, bytesToStr, b64d, hbc]

/-- C1 witness: concrete instance of the amended claim, keypairs 0 (sender),
1 (intended recipient) and 2 (wrong recipient). -/
theorem c1_wrong_recipient_raises_own_message_witness :
    (Protocol.init (KeyStr.privKey 2) (KeyStr.pubKey 2) KeyStr.noKey none none true 0).decrypt
      (DecryptInput.env { version := 1, secure := true, data := EnvData.secureData (Val.aesEnc (Val.random 2) (Val.random 3) (Val.jsonDumps (Val.ofString "x"))) (Val.rsaSig 0 (Val.jsonDumps (Val.ofString "x"))) (Val.rsaEnc 1 (Val.symJson (Val.random 2) (Val.random 3))) })
      false false = Except.error PyExc.OwnMessage :=
  c1_wrong_recipient_raises_own_message (Val.ofString "x") 0 1 2 0 0 KeyStr.noKey false false
    _ _ (by decide) rfl

/-- C1 counterexample: with keypairs 0 (sender), 1 (recipient) and 2
(decrypting peer), the envelope produced for keypair 1 decrypts under
keypair 2 to the exception `OwnMessage`, not to `UnauthorizedException`
(i.e. `rsa.pkcs1.DecryptionError`) as the claim states. -/
theorem c1_counterexample :
    ((Protocol.init (KeyStr.privKey 0) (KeyStr.pubKey 0) (KeyStr.pubKey 1) none none true 0).encrypt
        (Val.ofString "x") true).map Prod.fst
      = Except.ok { version := 1, secure := true, data := EnvData.secureData (Val.aesEnc (Val.random 2) (Val.random 3) (Val.jsonDumps (Val.ofString "x"))) (Val.rsaSig 0 (Val.jsonDumps (Val.ofString "x"))) (Val.rsaEnc 1 (Val.symJson (Val.random 2) (Val.random 3))) }
    ∧ (Protocol.init (KeyStr.privKey 2) (KeyStr.pubKey 2) KeyStr.noKey none none true 0).decrypt
        (DecryptInput.env { version := 1, secure := true, data := EnvData.secureData (Val.aesEnc (Val.random 2) (Val.random 3) (Val.jsonDumps (Val.ofString "x"))) (Val.rsaSig 0 (Val.jsonDumps (Val.ofString "x"))) (Val.rsaEnc 1 (Val.symJson (Val.random 2) (Val.random 3))) })
        false false = Except.error PyExc.OwnMessage
    ∧ (Except.error PyExc.OwnMessage : Except PyExc DecryptOut) ≠ Except.error PyExc.DecryptionError :=
  ⟨rfl, rfl, by simp⟩

/-- C2: round-trip identity — peer A (own keypair `a`, remote public key
`b`) encrypts any message securely; peer B (own keypair `b`, remote public
key `a`) decrypts the resulting envelope with
`ignore_invalid_signature=false` and obtains exactly the JSON serialization
of the message. -/
theorem c2_secure_roundtrip (m : Val) (a b rA rB : Nat) :
    ((Protocol.init (KeyStr.privKey a) (KeyStr.pubKey a) (KeyStr.pubKey b) none none true rA).encrypt m true).bind
      (fun res => (Protocol.init (KeyStr.privKey b) (KeyStr.pubKey b) (KeyStr.pubKey a) none none true rB).decrypt
        (DecryptInput.env res.1) false false)
      = Except.ok (DecryptOut.ret (Val.jsonDumps m)) := by
  rw [Protocol.encrypt_spec]
  simp [Protocol.decrypt, Protocol.init, Protocol.rotate_aes, Crypto.symmetric, unwrapSymKey,
        Crypto.decrypt, loadPriv, rsaDecryptRaw, jsonLoads, bytesToStr, b64d, getKeyIv,
        Crypto.aes_decrypt, aesDecryptRaw, Crypto.verify, loadPub, rsaVerifyRaw, Except.bind]

/-- C4: evaluating `Crypto.verify` at the failing input — an arbitrary
message and signature with a malformed (non-PEM) public-key string — shows
the call raising `ValueError` from `rsa.PublicKey.load_pkcs1` (which the
source places outside its try/except) instead of resolving to `false`. -/
theorem c4_verify_raises_on_malformed_key :
    Crypto.verify (Val.ofString "msg") (Val.ofString "sg") (KeyStr.garbage "notakey")
      = Except.error PyExc.ValueError := rfl

/-- C5: the topic matcher semantics — the three specified examples hold of
`MQTT.matchTopic`, the matcher is the pairwise segment walk over the
slash-split strings, and the walk satisfies the clauses of the claim:
matching empty lists match, exhausting either side alone is a non-match,
a single-level wildcard consumes exactly one topic segment, a multi-level
wildcard matches the (non-empty) remainder exactly when it is the final
pattern segment, and a literal segment must equal the topic segment
exactly. -/
theorem c5_topic_matcher :
    (MQTT.matchTopic "foo/#" "foo/bar" = true)
    ∧ (MQTT.matchTopic "+/bar" "foo/bar" = true)
    ∧ (MQTT.matchTopic "non/+/+" "non/matching" = false)
    ∧ (∀ s t : String, MQTT.matchTopic s t = segMatch (splitSlash s) (splitSlash t))
    ∧ (segMatch [] [] = true)
    ∧ (∀ t ts, segMatch [] (t :: ts) = false)
    ∧ (∀ p ps, segMatch (p :: ps) [] = false)
    ∧ (∀ ps t ts, segMatch ("+" :: ps) (t :: ts) = segMatch ps ts)
    ∧ (∀ ps t ts, segMatch ("#" :: ps) (t :: ts) = ps.isEmpty)
    ∧ (∀ p ps t ts, p ≠ "#" → p ≠ "+" →
        segMatch (p :: ps) (t :: ts) = if p = t then segMatch ps ts else false) := by
  refine ⟨by decide, by decide, by decide, fun s t => rfl, rfl, fun t ts => rfl,
          fun p ps => rfl, fun ps t ts => rfl, fun ps t ts => rfl, ?_⟩
  intro p ps t ts h1 h2
  simp [segMatch, h1, h2]

/-- C5 witness: the literal-segment clause applied at concrete segments. -/
theorem c5_topic_matcher_witness :
    segMatch ["a"] ["a"] = if "a" = "a" then segMatch [] [] else false :=
  c5_topic_matcher.2.2.2.2.2.2.2.2.2 "a" [] "a" [] (by decide) (by decide)

/-- C3 (amended): route resolution in the dispatcher is first-match-wins
over the regex built from each registered pattern (plus becoming a
one-segment capture group, hash a no-space capture group), matched as a
PREFIX of the topic through Python `re.match`, with the regex capture
groups passed as the ordered argument list — in particular the pattern
client/+/ping against topic client/42/ping captures exactly the argument
list holding 42.  This regex resolution is NOT equivalent to the Topic
Matcher (see the counterexample). -/
theorem c3_regex_resolution (α : Type) (routes : List (String × α)) (topic : String) (d : α) :
    (API.get routes topic d =
      match routes.find? (fun pr => (reMatch (toRegex pr.1) topic.data).isSome) with
      | some pr => (pr.2, (reMatch (toRegex pr.1) topic.data).getD [])
      | none => (d, []))
    ∧ (∀ h : α, API.get [("client/+/ping", h)] "client/42/ping" d = (h, ["42"])) := by
  constructor
  · induction routes with
    | nil => rfl
    | cons hd tl ih =>
      obtain ⟨sub, h⟩ := hd
      cases hm : reMatch (toRegex sub) topic.data with
      | none => simpa [API.get, hm, List.find?] using ih
      | some gs => simp [API.get, hm, List.find?]
  · intro h
    rfl

/-- C3 counterexample: the dispatcher resolves pattern foo for topic
foo/bar (the constructed regex prefix-matches), executing its handler,
while the Topic Matcher rejects that pair — so the dispatcher's pattern
resolution is not equivalent to the Topic Matcher's match function, as the
claim states. -/
theorem c3_counterexample :
    API.execute [("foo", fun _ => HandlerResult.returns (PyObj.str "ok"))] "foo/bar"
      = (true, PyObj.str "ok")
    ∧ MQTT.matchTopic "foo" "foo/bar" = false :=
  ⟨rfl, by decide⟩

/-- Helper for C6: when no registered pattern's regex matches the topic,
resolution falls through to the supplied default. -/
theorem api_get_default_of_no_match (α : Type) (routes : List (String × α)) (topic : String)
    (d : α) (hnone : ∀ pr ∈ routes, reMatch (toRegex pr.1) topic.data = none) :
    API.get routes topic d = (d, []) := by
  induction routes with
  | nil => rfl
  | cons hd tl ih =>
    obtain ⟨sub, h⟩ := hd
    have h1 : reMatch (toRegex sub) topic.data = none := hnone (sub, h) (List.mem_cons_self _ _)
    simp only [API.get, h1]
    exact ih fun pr hpr => hnone pr (List.mem_cons_of_mem _ hpr)

/-- C6: the execute contract — a handler exception becomes
`(false, message)`, a boolean return becomes `(value, None)`, any other
return becomes `(true, value)`, and when no registered pattern matches the
topic the default route is used and execute returns
`(false, "Endpoint not found")`. -/
theorem c6_execute_contract (routes : List (String × Handler)) (topic : String) :
    (∀ msg, (API.get routes topic API.default_route).1 (API.get routes topic API.default_route).2
        = HandlerResult.raises msg → API.execute routes topic = (false, PyObj.str msg))
    ∧ (∀ b, (API.get routes topic API.default_route).1 (API.get routes topic API.default_route).2
        = HandlerResult.returns (PyObj.bool b) → API.execute routes topic = (b, PyObj.pynone))
    ∧ (∀ v, (∀ b, v ≠ PyObj.bool b) →
        (API.get routes topic API.default_route).1 (API.get routes topic API.default_route).2
          = HandlerResult.returns v → API.execute routes topic = (true, v))
    ∧ ((∀ pr ∈ routes, reMatch (toRegex pr.1) topic.data = none) →
        API.execute routes topic = (false, PyObj.str "Endpoint not found")) := by
  refine ⟨?_, ?_, ?_, ?_⟩
  · intro msg h
    simp [API.execute, h]
  · intro b h
    simp [API.execute, h]
  · intro v hv h
    cases v with
    | bool b => exact absurd rfl (hv b)
    | str s => simp [API.execute, h]
    | int n => simp [API.execute, h]
    | pynone => simp [API.execute, h]
  · intro hnone
    have hget := api_get_default_of_no_match _ routes topic API.default_route hnone
    simp [API.execute, hget, API.default_route]

/-- C6 witness: an empty route table leaves every topic to the default
route. -/
theorem c6_execute_contract_witness :
    API.execute [] "x" = (false, PyObj.str "Endpoint not found") :=
  (c6_execute_contract [] "x").2.2.2 (by simp)

/-- C7: evaluating `MQTT.onetime` at the failing input — a malformed own
private key together with a valid remote public key makes the secure
`publish` path raise while encrypting, and the exception propagates through
the bare re-raise with the ephemeral session still connected
(`disconnected = false`), contradicting the resource policy that every
exit path disconnects. -/
theorem c7_onetime_leaks_connection_on_exception :
    MQTT.onetime "caller" (KeyStr.garbage "notakey") KeyStr.noKey (KeyStr.pubKey 7)
      "some/topic" (Val.ofString "msg") 1 none (PyObj.bool true)
      = { result := .error .ValueError, disconnected := false, entryAtExit := false,
          replyToAttached := true, waitIters := 0 } := rfl

/-- Helper for C8: with no responder, the polling loop exits exactly one
tick past the deadline with the sentinel value, given sufficient fuel. -/
theorem onetimeLoop_no_reply (timeout : Nat) (v : PyObj) :
    ∀ fuel k, k ≤ timeout → timeout + 2 - k ≤ fuel →
      onetimeLoop timeout none v fuel k false = some (PyObj.bool false, timeout + 1) := by
  intro fuel
  induction fuel with
  | zero =>
    intro k hk hf
    omega
  | succ f ih =>
    intro k hk hf
    rw [onetimeLoop]
    simp only [arrivedAt, Bool.false_eq_true, if_false]
    by_cases hkt : k = timeout
    · have hd : decide (timeout < k + 1) = true := by
        simp only [decide_eq_true_eq]
        omega
      rw [hd]
      obtain ⟨f2, rfl⟩ : ∃ f2, f = f2 + 1 := ⟨f - 1, by omega⟩
      rw [onetimeLoop]
      simp [hkt]
    · have hd : decide (timeout < k + 1) = false := by
        simp only [decide_eq_false_iff_not]
        omega
      rw [hd]
      exact ih (k + 1) (by omega) (by omega)

/-- C8: the onetime timeout contract — provided the publish succeeds, a
zero timeout disconnects and returns None immediately, with no waiting and
no reply-to channel attached; a nonzero timeout with no responder waits
exactly one tick past the deadline, resolves the registry entry to the
sentinel `False`, removes the entry, disconnects, and returns the
sentinel. -/
theorem c8_onetime_timeout_contract (client_id : String) (priv pub rpub : KeyStr)
    (topic : String) (message : Val) (timeout : Nat) (arrivesAt : Option Nat) (replyVal : PyObj)
    (henc : ∃ r, (Protocol.init priv pub rpub none none true 0).encrypt
        (publishedFrame client_id topic message timeout) true = Except.ok r) :
    (timeout = 0 →
      MQTT.onetime client_id priv pub rpub topic message timeout arrivesAt replyVal
        = { result := .ok none, disconnected := true, entryAtExit := false,
            replyToAttached := false, waitIters := 0 })
    ∧ (timeout ≠ 0 → arrivesAt = none →
      MQTT.onetime client_id priv pub rpub topic message timeout arrivesAt replyVal
        = { result := .ok (some (PyObj.bool false)), disconnected := true, entryAtExit := false,
            replyToAttached := true, waitIters := timeout + 1 }) := by
  obtain ⟨r, henc⟩ := henc
  constructor
  · intro h0
    subst h0
    simp [MQTT.onetime, henc]
  · intro hne harr
    subst harr
    have hloop := onetimeLoop_no_reply timeout replyVal (timeout + 2) 0 (by omega) (by omega)
    simp [MQTT.onetime, henc, hne, hloop]

/-- C8 witness: an insecure session (no keys) with timeout 1 and no
responder returns the sentinel after two ticks. -/
theorem c8_onetime_timeout_contract_witness :
    MQTT.onetime "c" KeyStr.noKey KeyStr.noKey KeyStr.noKey "t" (Val.ofString "m") 1 none
      (PyObj.bool true)
      = { result := .ok (some (PyObj.bool false)), disconnected := true, entryAtExit := false,
          replyToAttached := true, waitIters := 2 } :=
  (c8_onetime_timeout_contract "c" KeyStr.noKey KeyStr.noKey KeyStr.noKey "t" (Val.ofString "m")
      1 none (PyObj.bool true) ⟨_, rfl⟩).2 (by decide) rfl

/-- C9 (amended): `check_signature` returns `false` exactly when the
underlying strict decrypt raises `SignatureMismatch`; it returns `true`
when the decrypt returns normally; and any OTHER exception of the decrypt
propagates out of `check_signature` instead of yielding `true`. -/
theorem c9_check_signature_characterization (p : Protocol) (input : DecryptInput) :
    (p.check_signature input = Except.ok false ↔
      p.decrypt input false true = Except.error PyExc.SignatureMismatch)
    ∧ (∀ r, p.decrypt input false true = Except.ok r → p.check_signature input = Except.ok true)
    ∧ (∀ e, e ≠ PyExc.SignatureMismatch → p.decrypt input false true = Except.error e →
        p.check_signature input = Except.error e) := by
  cases h : p.decrypt input false true with
  | ok r =>
    refine ⟨by simp [Protocol.check_signature, h], fun r2 h2 => by simp [Protocol.check_signature, h], ?_⟩
    intro e he h2
    exact absurd h2 (by simp)
  | error e =>
    cases e with
    | SignatureMismatch =>
      refine ⟨by simp [Protocol.check_signature, h], ?_, ?_⟩
      · intro r2 h2
        exact absurd h2 (by simp)
      · intro e2 he h2
        simp only [Except.error.injEq] at h2
        exact absurd h2.symm he
    | DecryptionError =>
      refine ⟨by simp [Protocol.check_signature, h], ?_, ?_⟩
      · intro r2 h2
        exact absurd h2 (by simp)
      · intro e2 he h2
        simp only [Except.error.injEq] at h2
        subst h2
        simp [Protocol.check_signature, h]
    | OwnMessage =>
      refine ⟨by simp [Protocol.check_signature, h], ?_, ?_⟩
      · intro r2 h2
        exact absurd h2 (by simp)
      · intro e2 he h2
        simp only [Except.error.injEq] at h2
        subst h2
        simp [Protocol.check_signature, h]
    | ValueError =>
      refine ⟨by simp [Protocol.check_signature, h], ?_, ?_⟩
      · intro r2 h2
        exact absurd h2 (by simp)
      · intro e2 he h2
        simp only [Except.error.injEq] at h2
        subst h2
        simp [Protocol.check_signature, h]
    | TypeError =>
      refine ⟨by simp [Protocol.check_signature, h], ?_, ?_⟩
      · intro r2 h2
        exact absurd h2 (by simp)
      · intro e2 he h2
        simp only [Except.error.injEq] at h2
        subst h2
        simp [Protocol.check_signature, h]

/-- C9 witness: a versionless input decrypts to None (a normal return), so
`check_signature` returns `true`. -/
theorem c9_check_signature_characterization_witness :
    (Protocol.init (KeyStr.privKey 0) (KeyStr.pubKey 0) KeyStr.noKey none none true 0).check_signature
      DecryptInput.noVersion = Except.ok true :=
  (c9_check_signature_characterization
      (Protocol.init (KeyStr.privKey 0) (KeyStr.pubKey 0) KeyStr.noKey none none true 0)
      DecryptInput.noVersion).2.1 DecryptOut.retNone rfl

/-- C9 counterexample: an envelope whose wrapped key does not unwrap with
the own private key makes the attempted decrypt raise `OwnMessage`;
`check_signature` then raises `OwnMessage` itself rather than returning
`true`, refuting the claim that every non-SignatureMismatch outcome
resolves to `true`. -/
theorem c9_counterexample :
    (Protocol.init (KeyStr.privKey 0) (KeyStr.pubKey 0) KeyStr.noKey none none true 0).check_signature
      (DecryptInput.env { version := 1, secure := true, data := EnvData.secureData (Val.aesEnc (Val.random 0) (Val.random 1) (Val.jsonDumps (Val.ofString "x"))) (Val.rsaSig 5 (Val.jsonDumps (Val.ofString "x"))) (Val.rsaEnc 9 (Val.symJson (Val.random 0) (Val.random 1))) })
      = Except.error PyExc.OwnMessage
    ∧ (Except.error PyExc.OwnMessage : Except PyExc Bool) ≠ Except.ok true :=
  ⟨rfl, by simp⟩

/-- C10 (amended): a Protocol instance constructed with
`remote_public_key = None` skips signature verification entirely and treats
it as failed — decrypting any secure envelope properly encrypted for its
keypair raises `SignatureMismatch` when `ignore_invalid_signature` is
false, even though the envelope carries a perfectly valid signature. -/
theorem c10_no_remote_key_signature_mismatch (m : Val) (a b rA rB : Nat) (raw : Bool)
    (env : Envelope) (pA2 : Protocol)
    (henc : (Protocol.init (KeyStr.privKey a) (KeyStr.pubKey a) (KeyStr.pubKey b) none none true rA).encrypt m true
      = Except.ok (env, pA2)) :
    (Protocol.init (KeyStr.privKey b) (KeyStr.pubKey b) KeyStr.noKey none none true rB).decrypt
      (DecryptInput.env env) false raw = Except.error PyExc.SignatureMismatch := by
  rw [Protocol.encrypt_spec] at henc
  simp only [Except.ok.injEq, Prod.mk.injEq] at henc
  obtain ⟨h1, h2⟩ := henc
  subst h1
  simp [Protocol.decrypt, Protocol.init, Protocol.rotate_aes, Crypto.symmetric, unwrapSymKey,
        Crypto.decrypt, loadPriv, rsaDecryptRaw, jsonLoads, bytesToStr, b64d, getKeyIv,
        Crypto.aes_decrypt, aesDecryptRaw]

/-- C10 witness: concrete instance — sender keypair 0, recipient keypair 1
holding no remote public key. -/
theorem c10_no_remote_key_signature_mismatch_witness :
    (Protocol.init (KeyStr.privKey 1) (KeyStr.pubKey 1) KeyStr.noKey none none true 0).decrypt
      (DecryptInput.env { version := 1, secure := true, data := EnvData.secureData (Val.aesEnc (Val.random 2) (Val.random 3) (Val.jsonDumps (Val.ofString "x"))) (Val.rsaSig 0 (Val.jsonDumps (Val.ofString "x"))) (Val.rsaEnc 1 (Val.symJson (Val.random 2) (Val.random 3))) })
      false false = Except.error PyExc.SignatureMismatch :=
  c10_no_remote_key_signature_mismatch (Val.ofString "x") 0 1 0 0 false _ _ rfl

/-- C10 counterexample: with a NON-KEY STRING as remote public key,
signature verification is not skipped — `Crypto.verify` is invoked, its key
loading raises `ValueError`, and that exception (not `SignatureMismatch`)
propagates out of decrypt, refuting the claim's parenthetical that a
non-key string behaves like None. -/
theorem c10_counterexample :
    (Protocol.init (KeyStr.privKey 1) (KeyStr.pubKey 1) (KeyStr.garbage "nonkey") none none true 0).decrypt
      (DecryptInput.env { version := 1, secure := true, data := EnvData.secureData (Val.aesEnc (Val.random 2) (Val.random 3) (Val.jsonDumps (Val.ofString "x"))) (Val.rsaSig 0 (Val.jsonDumps (Val.ofString "x"))) (Val.rsaEnc 1 (Val.symJson (Val.random 2) (Val.random 3))) })
      false false = Except.error PyExc.ValueError
    ∧ (Except.error PyExc.ValueError : Except PyExc DecryptOut) ≠ Except.error PyExc.SignatureMismatch :=
  ⟨rfl, by simp⟩

end Jarvis
